import Mathlib

/-!
# Verification of the review orchestration, persistence and reporting subsystem

A shallow embedding, in Lean 4, of the core of the `github-code-reviewer`
repository: the response/request data model (`src/ai/models`), the Anthropic
provider's response parsing (`src/ai/providers/anthropic.py`), the SQLite
storage layer (`src/ai/storage/sqlite.py`), the orchestrator
(`src/ai/reviewer.py`), and the Markdown report generator
(`src/ai/reporting/markdown.py`), together with theorems about the
behaviour of these functions.

Modelling conventions:
* Python values flowing through JSON are modelled by the `Json` inductive
  type; the Python value `None` and the JSON value `null` are both
  `Json.null`.
* Python `dict`s are association lists whose insertion replaces the value
  at the first occurrence of the key (as a Python dict update does).
* Exceptions are modelled with `Except`; the exception classes of
  `src/ai/exceptions.py` become the constructors of `AIError`.
* `datetime` timestamps are abstracted as `Nat` stamps; the code compares
  ISO-8601 strings that all come from `datetime.utcnow().isoformat()`,
  and on such uniformly formatted strings lexicographic comparison agrees
  with chronological comparison, which the `Nat` order models.
* Floating point numbers are modelled as rationals (`ℚ`); JSON numbers are
  decimals, a subset of ℚ.
-/

/-- A JSON value, as produced by `json.loads`.  Python `None` is `null`. -/
inductive Json where
  | null
  | bool (b : Bool)
  | num (q : ℚ)
  | str (s : String)
  | arr (items : List Json)
  | obj (fields : List (String × Json))
deriving Repr, Inhabited

/-- First-match association-list lookup, the read side of a Python dict
whose keys are unique (parsing and the code below keep them unique). -/
def dictGet? {β : Type _} : List (String × β) → String → Option β
  | [], _ => none
  | (k', v) :: rest, k => if k' = k then some v else dictGet? rest k

/-- Python dict assignment `d[k] = v`: replaces the value at the first
occurrence of `k`, otherwise appends. -/
def dictInsert {β : Type _} : List (String × β) → String → β → List (String × β)
  | [], k, v => [(k, v)]
  | (k', v') :: rest, k, v =>
      if k' = k then (k, v) :: rest else (k', v') :: dictInsert rest k v

/-- `review_data[k]` on a parsed JSON object; `none` is Python's `KeyError`
(or a failed `k in review_data` test).  On non-objects the lookup misses,
matching `field in review_data` being false for non-dict values. -/
def Json.getKey? : Json → String → Option Json
  | .obj fields, k => dictGet? fields k
  | _, _ => none

/-- Python truthiness of a JSON-representable value. -/
def Json.isTruthy : Json → Bool
  | .null => false
  | .bool b => b
  | .num q => !(decide (q = 0))
  | .str s => !s.isEmpty
  | .arr items => !items.isEmpty
  | .obj fields => !fields.isEmpty

/-! ## `src/ai/exceptions.py`

The exception taxonomy.  `jsonDecodeError` stands for
`json.JSONDecodeError` (raised by `json.loads`), and `otherError` for any
other built-in exception (`TypeError`, `AttributeError`, `ValueError`,
transport errors from the backend SDK, ...); both are needed to type the
`raise`/`except` flow of the source. -/

inductive AIError where
  | providerError (msg : String)
  | reviewError (msg : String)
  | storageError (msg : String)
  | jsonDecodeError (msg : String)
  | otherError (msg : String)
deriving Repr, DecidableEq

/-- Python `str(e)`: the message carried by the exception. -/
def AIError.message : AIError → String
  | .providerError m => m
  | .reviewError m => m
  | .storageError m => m
  | .jsonDecodeError m => m
  | .otherError m => m

/-! ## `src/ai/models/request.py` -/

/-- `ReviewType(str, Enum)`. -/
inductive ReviewType where
  | full
  | security
  | performance
  | maintainability
  | style
  | documentation
  | quick
deriving Repr, DecidableEq

/-- `ReviewType.value`. -/
def ReviewType.value : ReviewType → String
  | .full => "full"
  | .security => "security"
  | .performance => "performance"
  | .maintainability => "maintainability"
  | .style => "style"
  | .documentation => "documentation"
  | .quick => "quick"

/-- `ReviewType(s)`: enum lookup by value; `none` is the `ValueError`. -/
def ReviewType.ofValue? (s : String) : Option ReviewType :=
  if s = "full" then some .full
  else if s = "security" then some .security
  else if s = "performance" then some .performance
  else if s = "maintainability" then some .maintainability
  else if s = "style" then some .style
  else if s = "documentation" then some .documentation
  else if s = "quick" then some .quick
  else none

/-- `CodeContext` dataclass. -/
structure CodeContext where
  file_path : String
  content : String
  diff : Option String := none
  language : Option String := none
  repository : Option String := none
  base_branch : Option String := none
  commit_hash : Option String := none
  author : Option String := none
  changed_files : Option (List String) := none
deriving Repr

/-- `ReviewSettings` dataclass. -/
structure ReviewSettings where
  max_comments : Option Int := none
  min_severity : Option String := none
  focus_areas : Option (List String) := none
  ignore_patterns : Option (List String) := none
  custom_rules : Option (List (String × Json)) := none
deriving Repr

/-- `AIRequest` dataclass. -/
structure AIRequest where
  code_context : CodeContext
  review_type : ReviewType
  review_params : List (String × Json) := []
  settings : Option ReviewSettings := none
  max_tokens : Option Nat := none
  temperature : ℚ := mkRat 7 10
deriving Repr

/-- `AIRequest.validate`.  The `isinstance(self.review_type, ReviewType)`
check always holds in the typed embedding. -/
def AIRequest.validate (r : AIRequest) : Bool :=
  !r.code_context.content.isEmpty &&
  !r.code_context.file_path.isEmpty &&
  !(decide (r.temperature < 0) || decide (1 < r.temperature))

/-! ## `src/ai/models/response.py`

The dataclasses are untyped in Python; every field that can carry an
arbitrary JSON-decoded value is modelled as `Json`
(`Json.null` for `None`). -/

/-- `ReviewComment` dataclass. -/
structure ReviewComment where
  line_number : Json
  content : Json
  severity : Json
  category : Json
  suggested_fix : Json := .null
deriving Repr

/-- `AIResponse` dataclass.  The `timestamp` attribute is not serialized by
the storage layer and no claim mentions it, so it is omitted here. -/
structure AIResponse where
  comments : List ReviewComment
  summary : Json
  score : Json := .null
  metadata : Json := .null
deriving Repr

/-! ## JSON decoding (`json.loads`) and extraction (`re.search`)

`AnthropicProvider._parse_response` first runs
`re.search(r'\{[\s\S]*\}', content)` and then `json.loads` on the match.
`find_json_object` reproduces the regex: a match exists iff some `{` is
followed by some `}`; it then starts at the first `{` of the string and
greedily extends to the last `}`.  `json_loads` is a recursive-descent
decoder of the JSON grammar (strings with the common escapes, decimal
numbers, arrays, objects); the exact wording of CPython's decode errors,
exponent notation and `\uXXXX` escapes are abstracted (none of the
payloads the claims speak about use them, and every theorem below states
its decoding hypotheses in terms of `json_loads` itself).  Objects are
built with `dictInsert`, so duplicate keys keep the last value, exactly as
`json.loads` builds a `dict`. -/

/-- The regex `\{[\s\S]*\}` applied by `re.search`. -/
def find_json_object (content : String) : Option String :=
  let cs := content.toList
  match cs.findIdx? (· == '{') with
  | none => none
  | some i =>
    match cs.reverse.findIdx? (· == '}') with
    | none => none
    | some k =>
      let j := cs.length - 1 - k
      if i < j then some (String.mk ((cs.drop i).take (j - i + 1))) else none

/-- Skip JSON whitespace. -/
def skipWs : List Char → List Char
  | [] => []
  | c :: cs => if c == ' ' || c == '\t' || c == '\n' || c == '\r' then skipWs cs else c :: cs

/-- Longest digit run at the head of the input. -/
def takeDigits : List Char → (List Char × List Char)
  | [] => ([], [])
  | c :: cs =>
    if c.isDigit then
      let (ds, rest) := takeDigits cs
      (c :: ds, rest)
    else ([], c :: cs)

/-- Value of a digit run. -/
def digitsVal (ds : List Char) : Nat :=
  ds.foldl (fun acc c => acc * 10 + (c.toNat - 48)) 0

/-- Decode a JSON number (optional sign, integer part, optional fraction). -/
def parseNumber (cs : List Char) : Except String (Json × List Char) :=
  let (neg, cs1) :=
    match cs with
    | '-' :: rest => (true, rest)
    | _ => (false, cs)
  match takeDigits cs1 with
  | ([], _) => .error "Expecting value"
  | (ds, rest) =>
    let intPart : ℚ := (digitsVal ds : ℚ)
    match rest with
    | '.' :: rest2 =>
      match takeDigits rest2 with
      | ([], _) => .error "Expecting digit after decimal point"
      | (fs, rest3) =>
        let q : ℚ := intPart + (digitsVal fs : ℚ) / ((10 : ℚ) ^ fs.length)
        .ok (.num (if neg then -q else q), rest3)
    | _ => .ok (.num (if neg then -intPart else intPart), rest)

/-- The common JSON string escapes. -/
def escChar? (e : Char) : Option Char :=
  if e = '"' then some '"'
  else if e = '\\' then some '\\'
  else if e = '/' then some '/'
  else if e = 'n' then some '\n'
  else if e = 't' then some '\t'
  else if e = 'r' then some '\r'
  else if e = 'b' then some (Char.ofNat 8)
  else if e = 'f' then some (Char.ofNat 12)
  else none

/-- Decode the body of a JSON string after the opening quote; returns the
decoded characters and the input after the closing quote. -/
def parseStringChars : List Char → Except String (List Char × List Char)
  | [] => .error "Unterminated string"
  | '"' :: rest => .ok ([], rest)
  | '\\' :: rest =>
    match rest with
    | [] => .error "Unterminated string"
    | e :: rest2 =>
      match escChar? e with
      | some c =>
        match parseStringChars rest2 with
        | .ok (cs, rem) => .ok (c :: cs, rem)
        | .error m => .error m
      | none => .error "Invalid escape"
  | c :: rest =>
    match parseStringChars rest with
    | .ok (cs, rem) => .ok (c :: cs, rem)
    | .error m => .error m

/-- Match the remaining characters of a literal token (`true`, `false`,
`null`). -/
def stripToken : List Char → List Char → Option (List Char)
  | [], cs => some cs
  | t :: ts, c :: cs => if c == t then stripToken ts cs else none
  | _ :: _, [] => none

mutual

/-- Decode one JSON value; the `Nat` is recursion fuel (initialised above
input length, so it never runs out on the inputs under consideration). -/
def parseValue : Nat → List Char → Except String (Json × List Char)
  | 0, _ => .error "Expecting value"
  | fuel + 1, cs =>
    match skipWs cs with
    | [] => .error "Expecting value"
    | '"' :: rest =>
      match parseStringChars rest with
      | .ok (sc, rem) => .ok (.str (String.mk sc), rem)
      | .error m => .error m
    | '[' :: rest => parseArrayItems fuel rest []
    | '{' :: rest => parseObjMembers fuel rest []
    | 't' :: rest =>
      match stripToken "rue".toList rest with
      | some rem => .ok (.bool true, rem)
      | none => .error "Expecting value"
    | 'f' :: rest =>
      match stripToken "alse".toList rest with
      | some rem => .ok (.bool false, rem)
      | none => .error "Expecting value"
    | 'n' :: rest =>
      match stripToken "ull".toList rest with
      | some rem => .ok (.null, rem)
      | none => .error "Expecting value"
    | c :: rest => parseNumber (c :: rest)

/-- Decode the items of an array, positioned after `[` or after a `,`. -/
def parseArrayItems : Nat → List Char → List Json → Except String (Json × List Char)
  | 0, _, _ => .error "Expecting value"
  | fuel + 1, cs, acc =>
    match skipWs cs, acc.isEmpty with
    | ']' :: rest, true => .ok (.arr [], rest)
    | cs1, _ =>
      match parseValue fuel cs1 with
      | .error m => .error m
      | .ok (v, rem) =>
        match skipWs rem with
        | ',' :: rest => parseArrayItems fuel rest (acc ++ [v])
        | ']' :: rest => .ok (.arr (acc ++ [v]), rest)
        | _ => .error "Expecting comma delimiter"

/-- Decode the members of an object, positioned after `{` or after a `,`;
`dictInsert` gives the last-wins duplicate-key semantics of `dict`. -/
def parseObjMembers : Nat → List Char → List (String × Json) →
    Except String (Json × List Char)
  | 0, _, _ => .error "Expecting value"
  | fuel + 1, cs, acc =>
    match skipWs cs, acc.isEmpty with
    | '}' :: rest, true => .ok (.obj [], rest)
    | '"' :: rest, _ =>
      match parseStringChars rest with
      | .error m => .error m
      | .ok (kc, rem) =>
        match skipWs rem with
        | ':' :: rest2 =>
          match parseValue fuel rest2 with
          | .error m => .error m
          | .ok (v, rem2) =>
            let acc1 := dictInsert acc (String.mk kc) v
            match skipWs rem2 with
            | ',' :: rest3 => parseObjMembers fuel rest3 acc1
            | '}' :: rest3 => .ok (.obj acc1, rest3)
            | _ => .error "Expecting comma delimiter"
        | _ => .error "Expecting colon delimiter"
    | _, _ => .error "Expecting property name enclosed in double quotes"

end

/-- `json.loads`: decode a complete document, rejecting trailing data. -/
def json_loads (s : String) : Except String Json :=
  let cs := s.toList
  match parseValue (cs.length + 16) cs with
  | .error m => .error m
  | .ok (v, rest) => if (skipWs rest).isEmpty then .ok v else .error "Extra data"

/-! ## `src/ai/providers/anthropic.py`

`generate_review` validates the request, calls the backend, and parses the
raw text of the reply; its whole body sits inside
`try ... except Exception as e: raise ProviderError(...)`.  The backend
call itself is abstracted as an `Except String String` argument: the raw
reply text, or the message of a transport/auth/SDK exception.
`_parse_response` extracts the JSON object, decodes it, checks the
required top-level fields, and parses the comment entries; its body sits
inside `try ... except json.JSONDecodeError ... except Exception ...`,
both handlers re-raising `ReviewError`. -/

def AnthropicProvider.DEFAULT_MODEL : String := "claude-3-sonnet-20240229"

/-- The closed severity set of `_parse_response`. -/
def valid_severities : List String := ["error", "warning", "suggestion", "praise"]

/-- The known category set of `_parse_response`. -/
def valid_categories : List String :=
  ["security", "performance", "style", "logic", "documentation", "best_practices"]

/-- Python `str.lower`, evaluated at the character level
(`String.toLower` hides well-founded recursion that the kernel cannot
evaluate; this is the same function by `String.map`'s definition). -/
def strToLower (s : String) : String := String.mk (s.data.map Char.toLower)

/-- `severity = comment_data['severity'].lower()` followed by the closed-set
check with default `'suggestion'`. -/
def normalizeSeverity (s : String) : String :=
  if valid_severities.contains (strToLower s) then strToLower s else "suggestion"

/-- `category = comment_data['category'].lower()` followed by the known-set
check with default `'best_practices'`. -/
def normalizeCategory (s : String) : String :=
  if valid_categories.contains (strToLower s) then strToLower s else "best_practices"

/-- One iteration of the comment loop of `_parse_response`.
`.ok none` is the `except KeyError: continue` path (a required key is
absent); `.error _` is any other exception escaping the per-comment `try`
(an `AttributeError` from `.lower()` on a non-string, or a `TypeError`
from indexing a non-dict entry), which aborts the whole parse. -/
def parseComment (comment_data : Json) : Except AIError (Option ReviewComment) :=
  match comment_data with
  | .obj fields =>
    match dictGet? fields "severity" with
    | none => .ok none
    | some sevVal =>
      match sevVal with
      | .str sevRaw =>
        let severity := normalizeSeverity sevRaw
        match dictGet? fields "category" with
        | none => .ok none
        | some catVal =>
          match catVal with
          | .str catRaw =>
            let category := normalizeCategory catRaw
            match dictGet? fields "content" with
            | none => .ok none
            | some contentVal =>
              .ok (some
                { line_number := (dictGet? fields "line_number").getD .null
                  content := contentVal
                  severity := .str severity
                  category := .str category
                  suggested_fix := (dictGet? fields "suggested_fix").getD .null })
          | _ => .error (.otherError "AttributeError: object has no attribute lower")
      | _ => .error (.otherError "AttributeError: object has no attribute lower")
  | _ => .error (.otherError "TypeError: comment entry is not a mapping")

/-- The comment loop of `_parse_response`: skipped entries are dropped, the
first non-`KeyError` exception aborts. -/
def parseComments : List Json → Except AIError (List ReviewComment)
  | [] => .ok []
  | comment_data :: rest =>
    match parseComment comment_data with
    | .error e => .error e
    | .ok c? =>
      match parseComments rest with
      | .error e => .error e
      | .ok cs =>
        match c? with
        | some c => .ok (c :: cs)
        | none => .ok cs

/-- The `try` body of `AnthropicProvider._parse_response`. -/
def AnthropicProvider.parse_response_body (model : String) (content : String) :
    Except AIError AIResponse :=
  match find_json_object content with
  | none => .error (.reviewError "Could not find JSON in Claude's response")
  | some json_str =>
    match json_loads json_str with
    | .error m => .error (.jsonDecodeError m)
    | .ok review_data =>
      -- `if not all(field in review_data for field in ['summary', 'comments'])`
      match review_data.getKey? "summary", review_data.getKey? "comments" with
      | some summaryVal, some commentsVal =>
        match commentsVal with
        | .arr entries =>
          match parseComments entries with
          | .error e => .error e
          | .ok comments =>
            .ok { comments := comments
                  summary := summaryVal
                  score := (review_data.getKey? "score").getD .null
                  metadata := .obj [("model", .str model),
                                    ("total_comments", .num (comments.length : ℚ))] }
        | _ => .error (.otherError "TypeError: comments value is not iterable entry-wise")
      | _, _ => .error (.reviewError "Missing required fields in review response")

/-- `AnthropicProvider._parse_response`: the `try` body with its two
handlers, both of which surface a `ReviewError`. -/
def AnthropicProvider._parse_response (model : String) (content : String) :
    Except AIError AIResponse :=
  match AnthropicProvider.parse_response_body model content with
  | .ok r => .ok r
  | .error (.jsonDecodeError m) =>
      .error (.reviewError ("Failed to parse JSON response: " ++ m))
  | .error e =>
      .error (.reviewError ("Failed to parse review response: " ++ e.message))

/-- `AnthropicProvider.generate_review`: validation, backend call and
parsing inside `try ... except Exception: raise ProviderError(...)`.
`backend` is the outcome of `self.client.messages.create(...)`. -/
def AnthropicProvider.generate_review (model : String)
    (backend : Except String String) (request : AIRequest) :
    Except AIError AIResponse :=
  let body : Except AIError AIResponse :=
    if !request.validate then .error (.providerError "Invalid request parameters")
    else
      match backend with
      | .error m => .error (.otherError m)
      | .ok content => AnthropicProvider._parse_response model content
  match body with
  | .ok r => .ok r
  | .error e => .error (.providerError ("Failed to generate review: " ++ e.message))

/-! ## `src/ai/storage/sqlite.py` and `src/ai/storage/base.py`

The `reviews` table is a list of rows; `review_response` holds the value
written by `json.dumps(self._serialize_review(review))` — since
`json.loads` inverts `json.dumps` on JSON-representable values, the text
layer is modelled as the identity and the column holds the JSON tree.
The `DATETIME` column holds `datetime.utcnow().isoformat()` strings;
those uniformly formatted strings compare lexicographically exactly as
the timestamps compare chronologically, which the `Nat` stamps model.
Fresh `uuid.uuid4()` identifiers and the write-time clock are passed as
arguments. -/

/-- A row of the `reviews` table. -/
structure ReviewRow where
  id : String
  file_path : String
  review_type : String
  review_response : Json
  timestamp : Nat
  metadata : Option Json
deriving Repr

/-- The `reviews` table. -/
abbrev ReviewsDb := List ReviewRow

/-- `ReviewRecord.__init__` (`src/ai/storage/base.py`): `metadata or {}`. -/
structure ReviewRecord where
  id : String
  file_path : String
  review_type : ReviewType
  review_response : AIResponse
  timestamp : Nat
  metadata : Json
deriving Repr

/-- Build a `ReviewRecord`, applying the `metadata = metadata or {}`
normalisation of the constructor. -/
def ReviewRecord.make (id file_path : String) (review_type : ReviewType)
    (review_response : AIResponse) (timestamp : Nat) (metadata : Option Json) :
    ReviewRecord :=
  { id := id, file_path := file_path, review_type := review_type
    review_response := review_response, timestamp := timestamp
    metadata :=
      match metadata with
      | some m => if m.isTruthy then m else .obj []
      | none => .obj [] }

/-- The comment serializer inside `SQLiteStorage._serialize_review`. -/
def SQLiteStorage.serialize_comment (c : ReviewComment) : Json :=
  .obj [("line_number", c.line_number), ("content", c.content),
        ("severity", c.severity), ("category", c.category),
        ("suggested_fix", c.suggested_fix)]

/-- `SQLiteStorage._serialize_review`. -/
def SQLiteStorage._serialize_review (review : AIResponse) : Json :=
  .obj [("comments", .arr (review.comments.map SQLiteStorage.serialize_comment)),
        ("summary", review.summary), ("score", review.score),
        ("metadata", review.metadata)]

/-- The comment deserializer inside `SQLiteStorage._deserialize_review`;
a missing required key is the `KeyError` the source turns into a
`StorageError`, a non-dict entry is the (uncaught) `TypeError` that the
calling query methods wrap into a `StorageError`. -/
def SQLiteStorage.deserialize_comment (c : Json) : Except AIError ReviewComment :=
  match c with
  | .obj fields =>
    match dictGet? fields "line_number", dictGet? fields "content",
          dictGet? fields "severity", dictGet? fields "category" with
    | some ln, some content, some severity, some category =>
      .ok { line_number := ln, content := content, severity := severity
            category := category
            suggested_fix := (dictGet? fields "suggested_fix").getD .null }
    | _, _, _, _ => .error (.storageError "Failed to deserialize review: KeyError")
  | _ => .error (.otherError "TypeError: comment entry is not a mapping")

/-- The comment list comprehension of `_deserialize_review`: the first
failing entry aborts the whole deserialization. -/
def SQLiteStorage.deserialize_comments : List Json → Except AIError (List ReviewComment)
  | [] => .ok []
  | c :: rest =>
    match SQLiteStorage.deserialize_comment c with
    | .error e => .error e
    | .ok rc =>
      match SQLiteStorage.deserialize_comments rest with
      | .error e => .error e
      | .ok rcs => .ok (rc :: rcs)

/-- `SQLiteStorage._deserialize_review`. -/
def SQLiteStorage._deserialize_review (data : Json) : Except AIError AIResponse :=
  match data.getKey? "comments", data.getKey? "summary" with
  | some (.arr cs), some summaryVal =>
    match SQLiteStorage.deserialize_comments cs with
    | .error e => .error e
    | .ok comments =>
      .ok { comments := comments
            summary := summaryVal
            score := (data.getKey? "score").getD .null
            metadata := (data.getKey? "metadata").getD .null }
  | some _, some _ => .error (.otherError "TypeError: comments value is not iterable entry-wise")
  | _, _ => .error (.storageError "Failed to deserialize review: KeyError")

/-- `json.dumps(metadata) if metadata else None`: a falsy metadata
argument becomes a `NULL` column. -/
def storedMetadata (metadata : Option Json) : Option Json :=
  match metadata with
  | some m => if m.isTruthy then some m else none
  | none => none

/-- `SQLiteStorage.save_review`: generate an id, serialize, `INSERT` with a
write-time timestamp. -/
def SQLiteStorage.save_review (db : ReviewsDb) (review_id : String) (now : Nat)
    (file_path : String) (review_type : ReviewType) (review : AIResponse)
    (metadata : Option Json) : String × ReviewsDb :=
  (review_id,
   db ++ [{ id := review_id
            file_path := file_path
            review_type := review_type.value
            review_response := SQLiteStorage._serialize_review review
            timestamp := now
            metadata := storedMetadata metadata }])

/-- Rebuild a `ReviewRecord` from a row, as the query methods do:
`ReviewType(row[2])`, `_deserialize_review(row[3])`,
`json.loads(row[5]) if row[5] else None`. -/
def SQLiteStorage.row_to_record (row : ReviewRow) : Except AIError ReviewRecord :=
  match ReviewType.ofValue? row.review_type with
  | none => .error (.otherError ("ValueError: invalid review type " ++ row.review_type))
  | some rt =>
    match SQLiteStorage._deserialize_review row.review_response with
    | .error e => .error e
    | .ok resp => .ok (ReviewRecord.make row.id row.file_path rt resp row.timestamp row.metadata)

/-- `SQLiteStorage.get_review`: `SELECT * FROM reviews WHERE id = ?` with
`fetchone`; `None` (not an error) when the id is absent; any exception is
wrapped into a `StorageError`. -/
def SQLiteStorage.get_review (db : ReviewsDb) (review_id : String) :
    Except AIError (Option ReviewRecord) :=
  match db.find? (fun row => row.id == review_id) with
  | none => .ok none
  | some row =>
    match SQLiteStorage.row_to_record row with
    | .ok rec => .ok (some rec)
    | .error e => .error (.storageError ("Failed to get review: " ++ e.message))

/-- Insert a row into a list sorted by descending timestamp
(`ORDER BY timestamp DESC`). -/
def insertRowDesc (row : ReviewRow) : List ReviewRow → List ReviewRow
  | [] => [row]
  | r :: rs =>
    if row.timestamp ≤ r.timestamp then r :: insertRowDesc row rs
    else row :: r :: rs

/-- `ORDER BY timestamp DESC` as an insertion sort. -/
def sortByTimestampDesc : List ReviewRow → List ReviewRow
  | [] => []
  | r :: rs => insertRowDesc r (sortByTimestampDesc rs)

/-- The `WHERE` clause of `get_file_reviews`. -/
def SQLiteStorage.fileQueryMatches (file_path : String)
    (review_type : Option ReviewType) (row : ReviewRow) : Bool :=
  row.file_path == file_path &&
  (match review_type with
   | some rt => row.review_type == rt.value
   | none => true)

/-- The record list comprehension of the query methods: the first failing
row aborts the query. -/
def SQLiteStorage.rows_to_records : List ReviewRow → Except AIError (List ReviewRecord)
  | [] => .ok []
  | row :: rest =>
    match SQLiteStorage.row_to_record row with
    | .error e => .error e
    | .ok rec =>
      match SQLiteStorage.rows_to_records rest with
      | .error e => .error e
      | .ok recs => .ok (rec :: recs)

/-- `SQLiteStorage.get_file_reviews`.  `if limit:` makes a falsy limit
(`None` or `0`) add no `LIMIT` clause, and SQLite treats a negative
`LIMIT` as unbounded. -/
def SQLiteStorage.get_file_reviews (db : ReviewsDb) (file_path : String)
    (limit : Option Int) (review_type : Option ReviewType) :
    Except AIError (List ReviewRecord) :=
  let rows := db.filter (SQLiteStorage.fileQueryMatches file_path review_type)
  let rows := sortByTimestampDesc rows
  let rows :=
    match limit with
    | some n => if n ≠ 0 then (if 0 ≤ n then rows.take n.toNat else rows) else rows
    | none => rows
  match SQLiteStorage.rows_to_records rows with
  | .ok recs => .ok recs
  | .error e => .error (.storageError ("Failed to get file reviews: " ++ e.message))

/-- `SQLiteStorage.cleanup_old_reviews`:
`DELETE FROM reviews WHERE timestamp < ?`, returning `cursor.rowcount`. -/
def SQLiteStorage.cleanup_old_reviews (db : ReviewsDb) (older_than : Nat) :
    Nat × ReviewsDb :=
  ((db.filter (fun row => decide (row.timestamp < older_than))).length,
   db.filter (fun row => !(decide (row.timestamp < older_than))))

/-! ## `src/ai/reviewer.py`

The orchestrator.  The provider and the storage are abstracted as
functions: `ProviderFn` is the outcome of
`self.provider.generate_review(request)` on each request, and `SaveFn`
the outcome of `self.storage.save_review(...)` (the id, or the raised
exception).  The `**context_kwargs` threading is not modelled — no claim
depends on it, and the `CodeContext` then carries only the file path and
content, its other fields keeping their dataclass defaults.
`default_review_type` and `default_settings` are the attributes installed
through `set_default_review_type` / `set_default_settings`. -/

abbrev ProviderFn := AIRequest → Except AIError AIResponse

abbrev SaveFn := String → ReviewType → AIResponse → Except AIError String

/-- `ReviewResult.__init__`. -/
structure ReviewResult where
  reviews : List (String × AIResponse) := []
  start_time : Nat
  end_time : Option Nat := none
  total_files : Nat := 0
  successful_reviews : Nat := 0
  failed_reviews : Nat := 0
  errors : List (String × String) := []
  review_ids : List (String × String) := []

/-- `ReviewResult.add_review`; `if review_id:` skips falsy ids. -/
def ReviewResult.add_review (r : ReviewResult) (file_path : String)
    (review : AIResponse) (review_id : Option String) : ReviewResult :=
  { r with
    reviews := dictInsert r.reviews file_path review
    successful_reviews := r.successful_reviews + 1
    review_ids :=
      match review_id with
      | some id => if id.isEmpty then r.review_ids else dictInsert r.review_ids file_path id
      | none => r.review_ids }

/-- `ReviewResult.add_error`. -/
def ReviewResult.add_error (r : ReviewResult) (file_path : String)
    (error : String) : ReviewResult :=
  { r with
    errors := dictInsert r.errors file_path error
    failed_reviews := r.failed_reviews + 1 }

/-- The `AIRequest` built at the top of `Reviewer.review_file`
(`review_params={}`, dataclass defaults for `max_tokens` and
`temperature`). -/
def Reviewer.mk_request (file_path content : String) (review_type : ReviewType)
    (settings : Option ReviewSettings) : AIRequest :=
  { code_context := { file_path := file_path, content := content }
    review_type := review_type
    review_params := []
    settings := settings }

/-- `Reviewer.review_file`.  The whole body is inside
`try ... except Exception as e: raise ReviewError(f"Review failed for {file_path}: ...")`;
inside it, only a `StorageError` from the best-effort save is caught and
logged (`review_id` staying `None`).  `review_type or self.default_review_type`
and `settings or self.default_settings` resolve the per-call overrides. -/
def Reviewer.review_file (provider : ProviderFn) (storage : Option SaveFn)
    (default_review_type : ReviewType) (default_settings : Option ReviewSettings)
    (file_path content : String) (review_type? : Option ReviewType)
    (settings? : Option ReviewSettings) (store_review : Bool) :
    Except AIError (AIResponse × Option String) :=
  let request := Reviewer.mk_request file_path content
    (review_type?.getD default_review_type) (settings? <|> default_settings)
  let body : Except AIError (AIResponse × Option String) :=
    if !request.validate then
      .error (.reviewError ("Invalid review request for file: " ++ file_path))
    else
      match provider request with
      | .error e => .error e
      | .ok review =>
        match store_review, storage with
        | true, some save =>
          match save file_path request.review_type review with
          | .ok review_id => .ok (review, some review_id)
          | .error (.storageError _) => .ok (review, none)  -- logged and swallowed
          | .error e => .error e
        | _, _ => .ok (review, none)
  match body with
  | .ok res => .ok res
  | .error e =>
      .error (.reviewError ("Review failed for " ++ file_path ++ ": " ++ e.message))

/-- The per-task body of `Reviewer.review_files`
(`review_with_semaphore` without the gate): record the outcome of
`review_file` into the shared result, success in `reviews`, failure in
`errors` with `str(e)`. -/
def Reviewer.recordOutcome (provider : ProviderFn) (storage : Option SaveFn)
    (default_review_type : ReviewType) (default_settings : Option ReviewSettings)
    (review_type? : Option ReviewType) (settings? : Option ReviewSettings)
    (store_reviews : Bool) (result : ReviewResult) (fc : String × String) :
    ReviewResult :=
  match Reviewer.review_file provider storage default_review_type default_settings
      fc.1 fc.2 review_type? settings? store_reviews with
  | .ok (review, review_id) => result.add_review fc.1 review review_id
  | .error e => result.add_error fc.1 e.message

/-- `Reviewer.review_files`.  `total_files` is fixed at `len(files)` before
any task is scheduled; every task records exactly one outcome; `end_time`
is set only after `asyncio.gather` returns.  Tasks complete in some
interleaving bounded by the semaphore (the gate itself is modelled below);
each task writes only its own key and bumps one counter, so the aggregate
result does not depend on the completion order, and the fold models one
such order. -/
def Reviewer.review_files (provider : ProviderFn) (storage : Option SaveFn)
    (default_review_type : ReviewType) (default_settings : Option ReviewSettings)
    (files : List (String × String)) (review_type? : Option ReviewType)
    (settings? : Option ReviewSettings) (store_reviews : Bool)
    (start_time end_time : Nat) : ReviewResult :=
  let init : ReviewResult := { start_time := start_time, total_files := files.length }
  let final := files.foldl
    (Reviewer.recordOutcome provider storage default_review_type default_settings
      review_type? settings? store_reviews) init
  { final with end_time := some end_time }

/-! ## The concurrency gate of `Reviewer.review_files`

`asyncio.Semaphore(max_concurrent)` with
`async with semaphore: ...` around each task body.  Cooperative
concurrency: each task atomically acquires the gate when its count is
positive (suspending otherwise), runs the provider call, and the
`async with` releases the gate on both the success and the failure exit
of the body.  `BatchStep` is the interleaving small-step relation over
the scheduler state; `Reachable` are the states of any execution. -/

/-- The phase of one per-file task: not yet through the gate, inside the
gate performing the provider call, or finished (successfully or not). -/
inductive TaskPhase where
  | pending
  | running
  | done (success : Bool)
deriving Repr, DecidableEq

/-- Is the task inside the gate? -/
def TaskPhase.isRunning : TaskPhase → Bool
  | .running => true
  | _ => false

/-- Has the task finished? -/
def TaskPhase.isDone : TaskPhase → Bool
  | .done _ => true
  | _ => false

/-- Scheduler state: the semaphore count and the phase of each task. -/
structure BatchState where
  sem : Nat
  tasks : List TaskPhase
deriving Repr

/-- Number of tasks concurrently inside the provider call. -/
def countRunning (tasks : List TaskPhase) : Nat :=
  tasks.countP TaskPhase.isRunning

/-- One scheduler step: `acquire` is `async with semaphore` entering the
body (only when the count is positive), `finish` is the body completing —
successfully or with an exception — and the `async with` releasing the
gate on that exit path. -/
inductive BatchStep : BatchState → BatchState → Prop where
  | acquire (s : BatchState) (i : Nat)
      (hpend : s.tasks[i]? = some .pending) (hsem : 0 < s.sem) :
      BatchStep s ⟨s.sem - 1, s.tasks.set i .running⟩
  | finish (s : BatchState) (i : Nat) (ok : Bool)
      (hrun : s.tasks[i]? = some .running) :
      BatchStep s ⟨s.sem + 1, s.tasks.set i (.done ok)⟩

/-- The initial scheduler state for `N` files under cap `K`. -/
def initBatch (K N : Nat) : BatchState :=
  { sem := K, tasks := List.replicate N .pending }

/-- States reachable by the scheduler. -/
inductive BatchReachable (s₀ : BatchState) : BatchState → Prop where
  | refl : BatchReachable s₀ s₀
  | step {s t : BatchState} : BatchReachable s₀ s → BatchStep s t → BatchReachable s₀ t

/-! ## `src/ai/reporting/base.py` and `src/ai/reporting/markdown.py`

Only `generate_historical_report` is needed by the claims; it is embedded
whole.  Rendering details that depend on CPython float formatting
(`f"{x:.2f}"` on binary floats, `str()` of numbers) are modelled by
honest rational counterparts; the `timestamp.isoformat()` of the abstract
`Nat` stamps is their decimal rendering.  A non-numeric, non-`None`
stored score would make `statistics.mean` / `:.2f` raise in CPython; that
corner is abstracted (scores are numbers or `None` everywhere in the
system). -/

/-- `ReportSection.__init__`: `metrics or {}`. -/
structure ReportSection where
  title : String
  content : String
  severity : Option String := none
  metrics : List (String × Json) := []
deriving Repr

/-- `ReviewReport.__init__`: `metadata or {}`; the `timestamp` attribute
is not mentioned by any claim and is omitted. -/
structure ReviewReport where
  title : String
  summary : String
  sections : List ReportSection
  metadata : List (String × Json) := []
deriving Repr

/-- Two-decimal fixed-point rendering, the model of `f"{x:.2f}"`. -/
def fmt2 (q : ℚ) : String :=
  let c : Int := round (q * 100)
  let n := c.natAbs
  let fracStr := if n % 100 < 10 then "0" ++ toString (n % 100) else toString (n % 100)
  (if c < 0 then "-" else "") ++ toString (n / 100) ++ "." ++ fracStr

/-- `timestamp.isoformat()` on the abstract stamps. -/
def natIso (t : Nat) : String := toString t

/-- The numeric members of a list of stored scores. -/
def jsonNums (vs : List Json) : List ℚ :=
  vs.filterMap (fun v => match v with | .num q => some q | _ => none)

/-- `statistics.mean` on a list of rationals (callers guard non-emptiness). -/
def meanQ (qs : List ℚ) : ℚ := qs.sum / (qs.length : ℚ)

/-- The value column of `_format_metrics`:
floats through `:.2f`, everything else through `str`. -/
def pyMetricValue : Json → String
  | .num q => if q.den = 1 then toString q.num else fmt2 q
  | .str s => s
  | .bool b => if b then "True" else "False"
  | .null => "None"
  | _ => ""

/-- `MarkdownReportGenerator._format_metrics`. -/
def MarkdownReportGenerator._format_metrics (metrics : List (String × Json)) : String :=
  if metrics.isEmpty then ""
  else
    metrics.foldl
      (fun table kv => table ++ "| " ++ kv.1 ++ " | " ++ pyMetricValue kv.2 ++ " |\n")
      "| Metric | Value |\n|--------|-------|\n"

/-- Stable insertion into a list sorted by ascending timestamp. -/
def insertRecordAsc (rec : ReviewRecord) : List ReviewRecord → List ReviewRecord
  | [] => [rec]
  | r :: rs =>
    if r.timestamp ≤ rec.timestamp then r :: insertRecordAsc rec rs
    else rec :: r :: rs

/-- `sorted(reviews, key=lambda r: r.timestamp)`. -/
def sortRecordsAsc : List ReviewRecord → List ReviewRecord
  | [] => []
  | r :: rs => insertRecordAsc r (sortRecordsAsc rs)

/-- Minimum of the timestamps of a batch of records (`min(...)`, guarded
non-empty by the caller; `0` on the unreachable empty case). -/
def minTimestamp (reviews : List ReviewRecord) : Nat :=
  match reviews with
  | [] => 0
  | r :: rs => rs.foldl (fun acc x => Nat.min acc x.timestamp) r.timestamp

/-- Maximum of the timestamps of a batch of records. -/
def maxTimestamp (reviews : List ReviewRecord) : Nat :=
  match reviews with
  | [] => 0
  | r :: rs => rs.foldl (fun acc x => Nat.max acc x.timestamp) r.timestamp

/-- One line of the quality-score trend listing: emitted only when the
record has a score. -/
def trendLine (r : ReviewRecord) : String :=
  match r.review_response.score with
  | .null => ""
  | .num q => "- " ++ natIso r.timestamp ++ ": " ++ fmt2 q ++ "\n"
  | _ => ""

/-- `MarkdownReportGenerator.generate_historical_report`.  On an empty
record list it returns the explicit empty report (`title` set, zero
sections) before touching any statistics. -/
def MarkdownReportGenerator.generate_historical_report
    (reviews : List ReviewRecord) (file_path : Option String)
    (review_type : Option ReviewType) : ReviewReport :=
  if reviews.isEmpty then
    { title := "Historical Review Analysis"
      summary := "No review history available"
      sections := [] }
  else
    let review_counts := reviews.length
    let quality_scores := reviews.filterMap
      (fun r => match r.review_response.score with | .null => none | v => some v)
    let avg_score : Option ℚ :=
      if quality_scores.isEmpty then none else some (meanQ (jsonNums quality_scores))
    let metrics : List (String × Json) :=
      [("Total Reviews", .num (review_counts : ℚ)),
       ("Average Quality Score",
        match avg_score with | some q => .str (fmt2 q) | none => .str "N/A"),
       ("First Review", .str (natIso (minTimestamp reviews))),
       ("Latest Review", .str (natIso (maxTimestamp reviews)))]
    let overview : ReportSection :=
      { title := "Historical Analysis Overview"
        content := "# Code Review History Report\n" ++
          (match file_path with
           | some fp => "## File: `" ++ fp ++ "`"
           | none => "## All Files") ++ "\n" ++
          (match review_type with
           | some rt => "Review Type: " ++ rt.value
           | none => "") ++ "\n\n" ++
          MarkdownReportGenerator._format_metrics metrics
        metrics := metrics }
    let trend_content := "## Quality Score Trend\n\n" ++
      (if quality_scores.isEmpty then
        "No quality scores available for trend analysis.\n"
       else
        "Quality scores over time:\n\n" ++
          String.join ((sortRecordsAsc reviews).map trendLine))
    let trend_section : ReportSection :=
      { title := "Trend Analysis", content := trend_content }
    { title := "Historical Review Analysis"
      summary := "Analysis of " ++ toString review_counts ++ " reviews"
      sections := [overview, trend_section]
      metadata :=
        [("file_path", match file_path with | some fp => .str fp | none => .null),
         ("review_type",
          match review_type with | some rt => .str rt.value | none => .null),
         ("metrics", .obj metrics)] }

/-! ## Basic lemmas about the orchestrator's aggregation -/

/-- Each completed task bumps exactly one of the two counters. -/
theorem Reviewer.recordOutcome_sum (provider : ProviderFn) (storage : Option SaveFn)
    (drt : ReviewType) (ds : Option ReviewSettings) (rt? : Option ReviewType)
    (st? : Option ReviewSettings) (store : Bool) (result : ReviewResult)
    (fc : String × String) :
    (Reviewer.recordOutcome provider storage drt ds rt? st? store result fc).successful_reviews +
      (Reviewer.recordOutcome provider storage drt ds rt? st? store result fc).failed_reviews =
    result.successful_reviews + result.failed_reviews + 1 := by
  unfold Reviewer.recordOutcome
  cases Reviewer.review_file provider storage drt ds fc.1 fc.2 rt? st? store with
  | ok p => simp only [ReviewResult.add_review]; omega
  | error e => simp only [ReviewResult.add_error]; omega

/-- Recording an outcome leaves `total_files` untouched. -/
theorem Reviewer.recordOutcome_total (provider : ProviderFn) (storage : Option SaveFn)
    (drt : ReviewType) (ds : Option ReviewSettings) (rt? : Option ReviewType)
    (st? : Option ReviewSettings) (store : Bool) (result : ReviewResult)
    (fc : String × String) :
    (Reviewer.recordOutcome provider storage drt ds rt? st? store result fc).total_files =
      result.total_files := by
  unfold Reviewer.recordOutcome
  cases Reviewer.review_file provider storage drt ds fc.1 fc.2 rt? st? store with
  | ok p => simp only [ReviewResult.add_review]
  | error e => simp only [ReviewResult.add_error]

/-- Over a whole batch the two counters advance by the number of files. -/
theorem Reviewer.foldl_recordOutcome_sum (provider : ProviderFn) (storage : Option SaveFn)
    (drt : ReviewType) (ds : Option ReviewSettings) (rt? : Option ReviewType)
    (st? : Option ReviewSettings) (store : Bool) :
    ∀ (files : List (String × String)) (init : ReviewResult),
    (files.foldl (Reviewer.recordOutcome provider storage drt ds rt? st? store) init).successful_reviews +
      (files.foldl (Reviewer.recordOutcome provider storage drt ds rt? st? store) init).failed_reviews =
    init.successful_reviews + init.failed_reviews + files.length := by
  intro files
  induction files with
  | nil => intro init; simp
  | cons fc rest ih =>
    intro init
    rw [List.foldl_cons, ih, List.length_cons,
      Reviewer.recordOutcome_sum provider storage drt ds rt? st? store init fc]
    omega

/-- `total_files` is preserved over a whole batch. -/
theorem Reviewer.foldl_recordOutcome_total (provider : ProviderFn) (storage : Option SaveFn)
    (drt : ReviewType) (ds : Option ReviewSettings) (rt? : Option ReviewType)
    (st? : Option ReviewSettings) (store : Bool) :
    ∀ (files : List (String × String)) (init : ReviewResult),
    (files.foldl (Reviewer.recordOutcome provider storage drt ds rt? st? store) init).total_files =
      init.total_files := by
  intro files
  induction files with
  | nil => intro init; simp
  | cons fc rest ih =>
    intro init
    rw [List.foldl_cons, ih,
      Reviewer.recordOutcome_total provider storage drt ds rt? st? store init fc]

/-- C2: for every input mapping of files and any mix of per-file provider
successes and failures, once `Reviewer.review_files` has set
`ReviewResult.end_time`, `successful_reviews + failed_reviews ==
total_files` holds, and `total_files` equals the size of the input mapping
fixed before any task is scheduled. -/
theorem review_files_counts_complete (provider : ProviderFn) (storage : Option SaveFn)
    (drt : ReviewType) (ds : Option ReviewSettings) (files : List (String × String))
    (rt? : Option ReviewType) (st? : Option ReviewSettings) (store : Bool)
    (t0 t1 : Nat) :
    (Reviewer.review_files provider storage drt ds files rt? st? store t0 t1).end_time = some t1 ∧
    (Reviewer.review_files provider storage drt ds files rt? st? store t0 t1).successful_reviews +
      (Reviewer.review_files provider storage drt ds files rt? st? store t0 t1).failed_reviews =
      (Reviewer.review_files provider storage drt ds files rt? st? store t0 t1).total_files ∧
    (Reviewer.review_files provider storage drt ds files rt? st? store t0 t1).total_files =
      files.length := by
  unfold Reviewer.review_files
  refine ⟨rfl, ?_, ?_⟩
  · simp only [Reviewer.foldl_recordOutcome_sum, Reviewer.foldl_recordOutcome_total]
    omega
  · simp only [Reviewer.foldl_recordOutcome_total]

/-- C9: on the empty record list `generate_historical_report` returns
(never raises) the explicitly empty report: the title is set (non-empty),
the sections list is empty, and the summary is the fixed availability
string. -/
theorem generate_historical_report_empty (fp : Option String) (rt : Option ReviewType) :
    (MarkdownReportGenerator.generate_historical_report [] fp rt).title =
      "Historical Review Analysis" ∧
    (MarkdownReportGenerator.generate_historical_report [] fp rt).title ≠ "" ∧
    (MarkdownReportGenerator.generate_historical_report [] fp rt).sections = [] ∧
    (MarkdownReportGenerator.generate_historical_report [] fp rt).summary =
      "No review history available" := by
  refine ⟨rfl, ?_, rfl, rfl⟩
  show ("Historical Review Analysis" : String) ≠ ""
  decide

/-! ## Dictionary lemmas -/

/-- Looking up the key just written. -/
theorem dictGet?_insert_self {β : Type _} (d : List (String × β)) (k : String) (v : β) :
    dictGet? (dictInsert d k v) k = some v := by
  induction d with
  | nil => simp [dictInsert, dictGet?]
  | cons kv rest ih =>
    obtain ⟨k', v'⟩ := kv
    by_cases h : k' = k
    · simp [dictInsert, h, dictGet?]
    · simp [dictInsert, h, dictGet?, ih]

/-- Writing one key leaves the other keys' lookups unchanged. -/
theorem dictGet?_insert_ne {β : Type _} (d : List (String × β)) (k k0 : String) (v : β)
    (h : k ≠ k0) : dictGet? (dictInsert d k v) k0 = dictGet? d k0 := by
  induction d with
  | nil => simp [dictInsert, dictGet?, h]
  | cons kv rest ih =>
    obtain ⟨k', v'⟩ := kv
    by_cases hk : k' = k
    · subst hk; simp [dictInsert, dictGet?, h]
    · simp [dictInsert, hk, dictGet?, ih]

/-! ## Per-key behaviour of the orchestrator's aggregation -/

/-- `Except.isOk` as a plain function. -/
def isOkB {ε α : Type _} : Except ε α → Bool
  | .ok _ => true
  | .error _ => false

/-- A task for one file never touches another file's slots. -/
theorem Reviewer.recordOutcome_lookup_ne (provider : ProviderFn) (storage : Option SaveFn)
    (drt : ReviewType) (ds : Option ReviewSettings) (rt? : Option ReviewType)
    (st? : Option ReviewSettings) (store : Bool) (result : ReviewResult)
    (fc : String × String) (fp : String) (h : fc.1 ≠ fp) :
    dictGet? (Reviewer.recordOutcome provider storage drt ds rt? st? store result fc).reviews fp =
      dictGet? result.reviews fp ∧
    dictGet? (Reviewer.recordOutcome provider storage drt ds rt? st? store result fc).errors fp =
      dictGet? result.errors fp := by
  unfold Reviewer.recordOutcome
  cases Reviewer.review_file provider storage drt ds fc.1 fc.2 rt? st? store with
  | ok p =>
    simp only [ReviewResult.add_review]
    exact ⟨dictGet?_insert_ne _ _ _ _ h, trivial⟩
  | error e =>
    simp only [ReviewResult.add_error]
    exact ⟨trivial, dictGet?_insert_ne _ _ _ _ h⟩

/-- A batch never touches the slots of a path outside it. -/
theorem Reviewer.foldl_recordOutcome_lookup_not_mem (provider : ProviderFn)
    (storage : Option SaveFn) (drt : ReviewType) (ds : Option ReviewSettings)
    (rt? : Option ReviewType) (st? : Option ReviewSettings) (store : Bool) :
    ∀ (files : List (String × String)) (init : ReviewResult) (fp : String),
    fp ∉ files.map Prod.fst →
    dictGet? ((files.foldl (Reviewer.recordOutcome provider storage drt ds rt? st? store) init)).reviews fp =
      dictGet? init.reviews fp ∧
    dictGet? ((files.foldl (Reviewer.recordOutcome provider storage drt ds rt? st? store) init)).errors fp =
      dictGet? init.errors fp := by
  intro files
  induction files with
  | nil => intro init fp _; exact ⟨rfl, rfl⟩
  | cons fc rest ih =>
    intro init fp hfp
    rw [List.map_cons, List.mem_cons] at hfp
    push_neg at hfp
    rw [List.foldl_cons]
    have hne : fc.1 ≠ fp := fun h => hfp.1 h.symm
    have hstep := Reviewer.recordOutcome_lookup_ne provider storage drt ds rt? st? store
      init fc fp hne
    have hrest := ih (Reviewer.recordOutcome provider storage drt ds rt? st? store init fc)
      fp hfp.2
    exact ⟨hrest.1.trans hstep.1, hrest.2.trans hstep.2⟩

/-- Per-file slots after a whole batch: each file's own outcome, and only
it, lands in that file's slot of `reviews` xor `errors`. -/
theorem Reviewer.foldl_recordOutcome_mem (provider : ProviderFn) (storage : Option SaveFn)
    (drt : ReviewType) (ds : Option ReviewSettings) (rt? : Option ReviewType)
    (st? : Option ReviewSettings) (store : Bool) :
    ∀ (files : List (String × String)) (init : ReviewResult),
    (files.map Prod.fst).Nodup →
    ∀ fp c, (fp, c) ∈ files →
    dictGet? init.reviews fp = none → dictGet? init.errors fp = none →
    ((∀ review id,
        Reviewer.review_file provider storage drt ds fp c rt? st? store = .ok (review, id) →
        dictGet? ((files.foldl (Reviewer.recordOutcome provider storage drt ds rt? st? store) init)).reviews fp = some review ∧
        dictGet? ((files.foldl (Reviewer.recordOutcome provider storage drt ds rt? st? store) init)).errors fp = none) ∧
     (∀ e, Reviewer.review_file provider storage drt ds fp c rt? st? store = .error e →
        dictGet? ((files.foldl (Reviewer.recordOutcome provider storage drt ds rt? st? store) init)).errors fp = some e.message ∧
        dictGet? ((files.foldl (Reviewer.recordOutcome provider storage drt ds rt? st? store) init)).reviews fp = none)) := by
  intro files
  induction files with
  | nil => intro init _ fp c hmem; simp at hmem
  | cons fc rest ih =>
    intro init hnd fp c hmem hri hei
    rw [List.map_cons, List.nodup_cons] at hnd
    rw [List.foldl_cons]
    rcases List.mem_cons.mp hmem with heq | hmem'
    · subst heq
      constructor
      · intro review id hok
        have hstep : Reviewer.recordOutcome provider storage drt ds rt? st? store init (fp, c) =
            init.add_review fp review id := by
          unfold Reviewer.recordOutcome
          rw [hok]
        rw [hstep]
        have huntouched := Reviewer.foldl_recordOutcome_lookup_not_mem provider storage
          drt ds rt? st? store rest (init.add_review fp review id) fp hnd.1
        rw [huntouched.1, huntouched.2]
        simp only [ReviewResult.add_review]
        exact ⟨dictGet?_insert_self _ _ _, hei⟩
      · intro e herr
        have hstep : Reviewer.recordOutcome provider storage drt ds rt? st? store init (fp, c) =
            init.add_error fp e.message := by
          unfold Reviewer.recordOutcome
          rw [herr]
        rw [hstep]
        have huntouched := Reviewer.foldl_recordOutcome_lookup_not_mem provider storage
          drt ds rt? st? store rest (init.add_error fp e.message) fp hnd.1
        rw [huntouched.1, huntouched.2]
        simp only [ReviewResult.add_error]
        exact ⟨dictGet?_insert_self _ _ _, hri⟩
    · have hfpmem : fp ∈ rest.map Prod.fst := List.mem_map_of_mem Prod.fst hmem'
      have hfpne : fc.1 ≠ fp := fun h => hnd.1 (h ▸ hfpmem)
      have hstep := Reviewer.recordOutcome_lookup_ne provider storage drt ds rt? st? store
        init fc fp hfpne
      exact ih (Reviewer.recordOutcome provider storage drt ds rt? st? store init fc)
        hnd.2 fp c hmem' (hstep.1.trans hri) (hstep.2.trans hei)

/-- The success counter counts exactly the tasks whose `review_file` call
succeeded. -/
theorem Reviewer.recordOutcome_successful (provider : ProviderFn) (storage : Option SaveFn)
    (drt : ReviewType) (ds : Option ReviewSettings) (rt? : Option ReviewType)
    (st? : Option ReviewSettings) (store : Bool) (result : ReviewResult)
    (fc : String × String) :
    (Reviewer.recordOutcome provider storage drt ds rt? st? store result fc).successful_reviews =
      result.successful_reviews +
        (if isOkB (Reviewer.review_file provider storage drt ds fc.1 fc.2 rt? st? store)
         then 1 else 0) ∧
    (Reviewer.recordOutcome provider storage drt ds rt? st? store result fc).failed_reviews =
      result.failed_reviews +
        (if isOkB (Reviewer.review_file provider storage drt ds fc.1 fc.2 rt? st? store)
         then 0 else 1) := by
  unfold Reviewer.recordOutcome
  cases Reviewer.review_file provider storage drt ds fc.1 fc.2 rt? st? store with
  | ok p => simp [ReviewResult.add_review, isOkB]
  | error e => simp [ReviewResult.add_error, isOkB]

/-- Batch-level version of `recordOutcome_successful`. -/
theorem Reviewer.foldl_recordOutcome_countP (provider : ProviderFn) (storage : Option SaveFn)
    (drt : ReviewType) (ds : Option ReviewSettings) (rt? : Option ReviewType)
    (st? : Option ReviewSettings) (store : Bool) :
    ∀ (files : List (String × String)) (init : ReviewResult),
    (files.foldl (Reviewer.recordOutcome provider storage drt ds rt? st? store) init).successful_reviews =
      init.successful_reviews +
        files.countP (fun fc => isOkB (Reviewer.review_file provider storage drt ds fc.1 fc.2 rt? st? store)) ∧
    (files.foldl (Reviewer.recordOutcome provider storage drt ds rt? st? store) init).failed_reviews =
      init.failed_reviews +
        files.countP (fun fc => !isOkB (Reviewer.review_file provider storage drt ds fc.1 fc.2 rt? st? store)) := by
  intro files
  induction files with
  | nil => intro init; simp
  | cons fc rest ih =>
    intro init
    rw [List.foldl_cons]
    have hstep := Reviewer.recordOutcome_successful provider storage drt ds rt? st? store init fc
    have hrest := ih (Reviewer.recordOutcome provider storage drt ds rt? st? store init fc)
    rw [List.countP_cons, List.countP_cons]
    constructor
    · rw [hrest.1, hstep.1]
      cases h : isOkB (Reviewer.review_file provider storage drt ds fc.1 fc.2 rt? st? store) <;>
        simp <;> try omega
    · rw [hrest.2, hstep.2]
      cases h : isOkB (Reviewer.review_file provider storage drt ds fc.1 fc.2 rt? st? store) <;>
        simp <;> try omega

/-- C1: for every input mapping of files (a dict, so the paths are
distinct) and any provider in which some per-file calls succeed and
others raise, `Reviewer.review_files` returns a `ReviewResult` without
raising: each file whose review succeeded appears in `reviews` (and not
in `errors`), each file whose review failed appears in `errors` with the
error string (and not in `reviews`), and the two counters count exactly
the successes and the failures. -/
theorem review_files_partial_failure_isolation (provider : ProviderFn)
    (storage : Option SaveFn) (drt : ReviewType) (ds : Option ReviewSettings)
    (files : List (String × String)) (rt? : Option ReviewType)
    (st? : Option ReviewSettings) (store : Bool) (t0 t1 : Nat)
    (hnodup : (files.map Prod.fst).Nodup) :
    (∀ fp c, (fp, c) ∈ files →
      (∀ review id,
        Reviewer.review_file provider storage drt ds fp c rt? st? store = .ok (review, id) →
        dictGet? (Reviewer.review_files provider storage drt ds files rt? st? store t0 t1).reviews fp = some review ∧
        dictGet? (Reviewer.review_files provider storage drt ds files rt? st? store t0 t1).errors fp = none) ∧
      (∀ e, Reviewer.review_file provider storage drt ds fp c rt? st? store = .error e →
        dictGet? (Reviewer.review_files provider storage drt ds files rt? st? store t0 t1).errors fp = some e.message ∧
        dictGet? (Reviewer.review_files provider storage drt ds files rt? st? store t0 t1).reviews fp = none)) ∧
    (Reviewer.review_files provider storage drt ds files rt? st? store t0 t1).successful_reviews =
      files.countP (fun fc => isOkB (Reviewer.review_file provider storage drt ds fc.1 fc.2 rt? st? store)) ∧
    (Reviewer.review_files provider storage drt ds files rt? st? store t0 t1).failed_reviews =
      files.countP (fun fc => !isOkB (Reviewer.review_file provider storage drt ds fc.1 fc.2 rt? st? store)) := by
  unfold Reviewer.review_files
  refine ⟨?_, ?_, ?_⟩
  · intro fp c hmem
    have h := Reviewer.foldl_recordOutcome_mem provider storage drt ds rt? st? store
      files { start_time := t0, total_files := files.length } hnodup fp c hmem rfl rfl
    exact h
  · have h := (Reviewer.foldl_recordOutcome_countP provider storage drt ds rt? st? store
      files { start_time := t0, total_files := files.length }).1
    simpa using h
  · have h := (Reviewer.foldl_recordOutcome_countP provider storage drt ds rt? st? store
      files { start_time := t0, total_files := files.length }).2
    simpa using h

/-! ## Concrete fixtures for the scenario instantiations -/

/-- A fixed successful review used by the concrete scenarios. -/
def sampleResponse : AIResponse :=
  { comments := [{ line_number := .null, content := .str "looks good"
                   severity := .str "suggestion", category := .str "best_practices"
                   suggested_fix := .null }]
    summary := .str "fine"
    score := .num 1
    metadata := .obj [] }

/-- An instrumented fake provider that fails only for `b.py`. -/
def failBProvider : ProviderFn := fun req =>
  if req.code_context.file_path == "b.py" then .error (.otherError "Simulated provider failure")
  else .ok sampleResponse

/-- The three-file batch of the scenario. -/
def threeFiles : List (String × String) := [("a.py", "ok"), ("b.py", "ok"), ("c.py", "ok")]

/-- Witness for C1: the batch `{a.py, b.py, c.py}` with a fake provider
failing only for `b.py` has `successful_reviews == 2`,
`failed_reviews == 1`, `b.py` in `errors` and not in `reviews`. -/
theorem review_files_partial_failure_isolation_witness :
    dictGet? (Reviewer.review_files failBProvider none .full none threeFiles (some .full) none true 0 1).errors "b.py" =
      some "Review failed for b.py: Simulated provider failure" ∧
    dictGet? (Reviewer.review_files failBProvider none .full none threeFiles (some .full) none true 0 1).reviews "b.py" = none ∧
    dictGet? (Reviewer.review_files failBProvider none .full none threeFiles (some .full) none true 0 1).reviews "a.py" =
      some sampleResponse ∧
    (Reviewer.review_files failBProvider none .full none threeFiles (some .full) none true 0 1).successful_reviews = 2 ∧
    (Reviewer.review_files failBProvider none .full none threeFiles (some .full) none true 0 1).failed_reviews = 1 := by
  have h := review_files_partial_failure_isolation failBProvider none .full none threeFiles
    (some .full) none true 0 1 (by decide)
  have hb := (h.1 "b.py" "ok" (by decide)).2
    (.reviewError "Review failed for b.py: Simulated provider failure") rfl
  have ha := (h.1 "a.py" "ok" (by decide)).1 sampleResponse none rfl
  refine ⟨hb.1, hb.2, ha.1, ?_, ?_⟩
  · rw [h.2.1]; decide
  · rw [h.2.2]; decide

/-- C8: when the provider review succeeds and the best-effort save
(`store_review` true, storage configured) fails with a `StorageError`,
`review_file` still returns the successful response with record id `None`
— the storage failure never turns a successful review into a failure. -/
theorem review_file_storage_failure_swallowed (provider : ProviderFn) (save : SaveFn)
    (drt : ReviewType) (ds : Option ReviewSettings) (fp c : String)
    (rt? : Option ReviewType) (st? : Option ReviewSettings)
    (review : AIResponse) (m : String)
    (hvalid : (Reviewer.mk_request fp c (rt?.getD drt) (st? <|> ds)).validate = true)
    (hprov : provider (Reviewer.mk_request fp c (rt?.getD drt) (st? <|> ds)) = .ok review)
    (hsave : save fp (Reviewer.mk_request fp c (rt?.getD drt) (st? <|> ds)).review_type review =
      .error (.storageError m)) :
    Reviewer.review_file provider (some save) drt ds fp c rt? st? true = .ok (review, none) := by
  unfold Reviewer.review_file
  simp only [hvalid, hprov, hsave, Bool.not_true, Bool.false_eq_true, if_false]

/-- Witness for C8: a concrete always-successful provider with an
always-failing store still yields the successful review. -/
theorem review_file_storage_failure_swallowed_witness :
    Reviewer.review_file (fun _ => .ok sampleResponse)
      (some (fun _ _ _ => .error (.storageError "disk full")))
      .full none "a.py" "print(1)" none none true = .ok (sampleResponse, none) :=
  review_file_storage_failure_swallowed (fun _ => .ok sampleResponse)
    (fun _ _ _ => .error (.storageError "disk full")) .full none "a.py" "print(1)"
    none none sampleResponse "disk full" (by decide) rfl rfl


/-! ## The gate invariant -/

/-- Overwriting index `i` swaps `a`'s contribution to `countP` for `b`'s. -/
theorem countP_set_of_getElem? {α : Type _} (p : α → Bool) :
    ∀ (l : List α) (i : Nat) (a b : α), l[i]? = some a →
    (l.set i b).countP p + (if p a then 1 else 0) =
      l.countP p + (if p b then 1 else 0) := by
  intro l
  induction l with
  | nil => intro i a b h; simp at h
  | cons x xs ih =>
    intro i a b h
    cases i with
    | zero =>
      simp at h
      subst h
      simp [List.countP_cons]
      omega
    | succ n =>
      simp at h
      have hx := ih n a b h
      simp [List.countP_cons]
      omega

/-- No task is inside the gate before the batch starts. -/
theorem countRunning_replicate_pending (n : Nat) :
    countRunning (List.replicate n .pending) = 0 := by
  induction n with
  | zero => rfl
  | succ m ih =>
    simp [List.replicate_succ, countRunning, List.countP_cons, TaskPhase.isRunning, ih]

/-- Each scheduler step preserves the gate invariant: free permits plus
held permits stay equal to the cap, and the task vector keeps its length. -/
theorem BatchStep.invariant {s t : BatchState} (hstep : BatchStep s t) (K : Nat)
    (hsem : s.sem + countRunning s.tasks = K) :
    t.sem + countRunning t.tasks = K ∧ t.tasks.length = s.tasks.length := by
  cases hstep with
  | acquire i hpend hsemPos =>
    have hcount := countP_set_of_getElem? TaskPhase.isRunning s.tasks i .pending .running hpend
    simp [TaskPhase.isRunning] at hcount
    constructor
    · simp only [countRunning] at *
      omega
    · simp [List.length_set]
  | finish i ok hrun =>
    have hcount := countP_set_of_getElem? TaskPhase.isRunning s.tasks i .running (.done ok) hrun
    simp [TaskPhase.isRunning] at hcount
    constructor
    · simp only [countRunning] at *
      omega
    · simp [List.length_set]

/-- The gate invariant holds in every reachable state of a batch. -/
theorem batch_invariant (K N : Nat) :
    ∀ s, BatchReachable (initBatch K N) s →
      s.sem + countRunning s.tasks = K ∧ s.tasks.length = N := by
  intro s h
  induction h with
  | refl =>
    constructor
    · simp [initBatch, countRunning_replicate_pending]
    · simp [initBatch]
  | step hreach hstep ih =>
    have hkeep := hstep.invariant K ih.1
    exact ⟨hkeep.1, hkeep.2.trans ih.2⟩

/-- C3: under cap `K`, at no reachable point of a batch are more than `K`
tasks concurrently inside the provider call, and once every task has
finished — successfully or not — the gate holds all `K` permits again:
it is released on every exit path and never leaks. -/
theorem semaphore_bound_and_no_leak (K N : Nat) (s : BatchState)
    (h : BatchReachable (initBatch K N) s) :
    countRunning s.tasks ≤ K ∧ (s.tasks.all TaskPhase.isDone → s.sem = K) := by
  have hinv := (batch_invariant K N s h).1
  constructor
  · omega
  · intro hall
    have hzero : countRunning s.tasks = 0 := by
      simp only [countRunning]
      rw [List.countP_eq_zero]
      intro t ht
      have hd := List.all_eq_true.mp hall t ht
      cases t <;> simp [TaskPhase.isDone, TaskPhase.isRunning] at *
    omega

/-- Witness for C3: an explicit interleaving under cap 1 with two tasks —
acquire, succeed, acquire, fail — never exceeds the cap and restores the
full permit count at the end. -/
theorem semaphore_bound_and_no_leak_witness :
    countRunning [TaskPhase.done true, TaskPhase.done false] ≤ 1 ∧
    (BatchState.mk 1 [TaskPhase.done true, TaskPhase.done false]).sem = 1 := by
  have t0 : BatchReachable (initBatch 1 2) (initBatch 1 2) := .refl
  have t1 := BatchReachable.step t0 (BatchStep.acquire (initBatch 1 2) 0 (by decide) (by decide))
  have t2 := BatchReachable.step t1 (BatchStep.finish _ 0 true (by decide))
  have t3 := BatchReachable.step t2 (BatchStep.acquire _ 1 (by decide) (by decide))
  have t4 := BatchReachable.step t3 (BatchStep.finish _ 1 false (by decide))
  have htrace : BatchReachable (initBatch 1 2)
      (BatchState.mk 1 [TaskPhase.done true, TaskPhase.done false]) := t4
  have h := semaphore_bound_and_no_leak 1 2
    (BatchState.mk 1 [TaskPhase.done true, TaskPhase.done false]) htrace
  exact ⟨h.1, h.2 (by decide)⟩

deriving instance DecidableEq for Except

/-! ## Severity/category normalisation and comment skipping (C4) -/

/-- The scenario payload `{"summary":"ok","comments":[{"content":"x"}]}`. -/
def payloadC4 : String := "\x7b\"summary\":\"ok\",\"comments\":[\x7b\"content\":\"x\"\x7d]\x7d"

/-- Counterexample to C4 as stated: the scenario payload, whose only
comment entry carries `content` but neither `severity` nor `category`,
parses to zero comments — the entry is skipped by the `KeyError` handler,
severity and category are not defaulted for an absent key. -/
theorem parse_response_missing_severity_not_defaulted :
    (AnthropicProvider._parse_response AnthropicProvider.DEFAULT_MODEL payloadC4).map
      (fun r => r.comments.length) = .ok 0 ∧
    (AnthropicProvider._parse_response AnthropicProvider.DEFAULT_MODEL payloadC4).map
      (fun r => r.comments.length) ≠ .ok 1 := by
  constructor
  · rfl
  · decide

/-- C4 (amended): a comment entry whose `severity` and `category` are
present as strings is normalised case-insensitively — severity to the
closed set with default `suggestion`, category to the known set with
default `best_practices` — while an entry missing any of the required
`severity`, `category` or `content` keys is skipped without raising; the
scenario payload therefore parses to zero comments. -/
theorem parse_response_normalization_and_skip :
    (∀ (sv cat : String) (ln contentVal fixVal : Json),
      parseComment (Json.obj [("line_number", ln), ("content", contentVal),
        ("severity", .str sv), ("category", .str cat), ("suggested_fix", fixVal)]) =
      .ok (some { line_number := ln, content := contentVal
                  severity := .str (normalizeSeverity sv)
                  category := .str (normalizeCategory cat)
                  suggested_fix := fixVal })) ∧
    (∀ fields, dictGet? fields "severity" = none →
      parseComment (.obj fields) = .ok none) ∧
    (∀ fields sv, dictGet? fields "severity" = some (.str sv) →
      dictGet? fields "category" = none →
      parseComment (.obj fields) = .ok none) ∧
    (∀ fields sv cat, dictGet? fields "severity" = some (.str sv) →
      dictGet? fields "category" = some (.str cat) →
      dictGet? fields "content" = none →
      parseComment (.obj fields) = .ok none) ∧
    ((AnthropicProvider._parse_response AnthropicProvider.DEFAULT_MODEL payloadC4).map
      (fun r => r.comments.length) = .ok 0) := by
  refine ⟨?_, ?_, ?_, ?_, rfl⟩
  · intro sv cat ln contentVal fixVal
    rfl
  · intro fields h
    simp [parseComment, h]
  · intro fields sv h1 h2
    simp [parseComment, h1, h2]
  · intro fields sv cat h1 h2 h3
    simp [parseComment, h1, h2, h3]

/-- Witness for the amended C4: `"ERROR"` normalises to `error`, the
unknown category `"weird"` to `best_practices`; entries missing
`severity`, `category` or `content` are each skipped; the scenario
payload yields zero comments. -/
theorem parse_response_normalization_and_skip_witness :
    parseComment (Json.obj [("line_number", .null), ("content", .str "x"),
      ("severity", .str "ERROR"), ("category", .str "weird"), ("suggested_fix", .null)]) =
      .ok (some { line_number := .null, content := .str "x"
                  severity := .str "error", category := .str "best_practices"
                  suggested_fix := .null }) ∧
    parseComment (.obj [("content", .str "x")]) = .ok none ∧
    parseComment (.obj [("severity", .str "error")]) = .ok none ∧
    parseComment (.obj [("severity", .str "error"), ("category", .str "style")]) = .ok none ∧
    (AnthropicProvider._parse_response AnthropicProvider.DEFAULT_MODEL payloadC4).map
      (fun r => r.comments.length) = .ok 0 := by
  have h := parse_response_normalization_and_skip
  have h1 := h.1 "ERROR" "weird" .null (.str "x") .null
  rw [show normalizeSeverity "ERROR" = "error" from by decide,
      show normalizeCategory "weird" = "best_practices" from by decide] at h1
  exact ⟨h1,
         h.2.1 [("content", .str "x")] rfl,
         h.2.2.1 [("severity", .str "error")] "error" rfl rfl,
         h.2.2.2.1 [("severity", .str "error"), ("category", .str "style")] "error" "style"
           rfl rfl rfl,
         h.2.2.2.2⟩

/-! ## Error classification of unparsable responses (C5) -/

/-- Did the call fail with a `ReviewError`? -/
def reviewErrorB : Except AIError AIResponse → Bool
  | .error (.reviewError _) => true
  | _ => false

/-- Did the call fail with a `ProviderError`? -/
def providerErrorB : Except AIError AIResponse → Bool
  | .error (.providerError _) => true
  | _ => false

/-- Counterexample to C5 as stated: on a payload in which no JSON object
can be located, `generate_review` fails with a `ProviderError` — its
blanket `except Exception` re-wraps the parse step's `ReviewError` — and
not with a `ReviewError`. -/
theorem generate_review_unparsable_yields_provider_error :
    providerErrorB (AnthropicProvider.generate_review AnthropicProvider.DEFAULT_MODEL
      (.ok "no json here") (Reviewer.mk_request "a.py" "print(1)" .full none)) = true ∧
    reviewErrorB (AnthropicProvider.generate_review AnthropicProvider.DEFAULT_MODEL
      (.ok "no json here") (Reviewer.mk_request "a.py" "print(1)" .full none)) = false :=
  ⟨rfl, rfl⟩

/-- C5 (amended): when no JSON object can be located, when the decode
fails, or when a required top-level field is absent, `_parse_response`
itself fails with a `ReviewError`; `generate_review` then wraps that — as
it wraps every failure of its body — into a `ProviderError` carrying the
original message; and individual malformed comment entries never abort
parsing of the remaining comments. -/
theorem parse_errors_wrapped_as_provider_error :
    (∀ (model content : String), find_json_object content = none →
      AnthropicProvider._parse_response model content =
        .error (.reviewError
          "Failed to parse review response: Could not find JSON in Claude's response")) ∧
    (∀ (model content s m : String), find_json_object content = some s →
      json_loads s = .error m →
      AnthropicProvider._parse_response model content =
        .error (.reviewError ("Failed to parse JSON response: " ++ m))) ∧
    (∀ (model content s : String) (j : Json), find_json_object content = some s →
      json_loads s = .ok j →
      (j.getKey? "summary" = none ∨ j.getKey? "comments" = none) →
      AnthropicProvider._parse_response model content =
        .error (.reviewError
          "Failed to parse review response: Missing required fields in review response")) ∧
    (∀ (model content : String) (request : AIRequest) (e : AIError),
      request.validate = true →
      AnthropicProvider._parse_response model content = .error e →
      AnthropicProvider.generate_review model (.ok content) request =
        .error (.providerError ("Failed to generate review: " ++ e.message))) ∧
    (∀ (l1 l2 : List Json) (entry : Json), parseComment entry = .ok none →
      parseComments (l1 ++ entry :: l2) = parseComments (l1 ++ l2)) := by
  refine ⟨?_, ?_, ?_, ?_, ?_⟩
  · intro model content h
    simp only [AnthropicProvider._parse_response, AnthropicProvider.parse_response_body, h,
      AIError.message]
    rfl
  · intro model content s m hfind hload
    simp only [AnthropicProvider._parse_response, AnthropicProvider.parse_response_body,
      hfind, hload]
  · intro model content s j hfind hload hmiss
    simp only [AnthropicProvider._parse_response, AnthropicProvider.parse_response_body,
      hfind, hload]
    rcases hmiss with h | h
    · simp only [h, AIError.message]
      rfl
    · simp only [h, AIError.message]
      cases j.getKey? "summary" <;> rfl
  · intro model content request e hvalid hparse
    unfold AnthropicProvider.generate_review
    simp only [hvalid, Bool.not_true, Bool.false_eq_true, if_false, hparse]
  · intro l1
    induction l1 with
    | nil =>
      intro l2 entry h
      cases hres : parseComments l2 <;> simp [parseComments, h, hres]
    | cons x l1' ih =>
      intro l2 entry h
      simp only [List.cons_append, parseComments, List.append_eq]
      rw [ih l2 entry h]

/-- A well-formed comment entry used by concrete parses. -/
def goodEntryA : Json :=
  .obj [("severity", .str "error"), ("category", .str "logic"), ("content", .str "a")]

/-- Another well-formed comment entry used by concrete parses. -/
def goodEntryB : Json :=
  .obj [("severity", .str "praise"), ("category", .str "style"), ("content", .str "b")]

/-- Witness for the amended C5: a payload with no JSON object, one whose
decode fails, one missing `comments`; the `ProviderError` wrapping by
`generate_review`; and a malformed entry dropped between two good ones. -/
theorem parse_errors_wrapped_as_provider_error_witness :
    AnthropicProvider._parse_response AnthropicProvider.DEFAULT_MODEL "no json here" =
      .error (.reviewError
        "Failed to parse review response: Could not find JSON in Claude's response") ∧
    AnthropicProvider._parse_response AnthropicProvider.DEFAULT_MODEL "x \x7b]\x7d" =
      .error (.reviewError ("Failed to parse JSON response: " ++
        "Expecting property name enclosed in double quotes")) ∧
    AnthropicProvider._parse_response AnthropicProvider.DEFAULT_MODEL
        "\x7b\"summary\":\"ok\"\x7d" =
      .error (.reviewError
        "Failed to parse review response: Missing required fields in review response") ∧
    AnthropicProvider.generate_review AnthropicProvider.DEFAULT_MODEL (.ok "no json here")
      (Reviewer.mk_request "a.py" "print(1)" .full none) =
      .error (.providerError ("Failed to generate review: " ++
        "Failed to parse review response: Could not find JSON in Claude's response")) ∧
    parseComments [goodEntryA, Json.obj [("content", Json.str "x")], goodEntryB] =
      parseComments [goodEntryA, goodEntryB] := by
  have h := parse_errors_wrapped_as_provider_error
  refine ⟨h.1 AnthropicProvider.DEFAULT_MODEL "no json here" rfl,
    h.2.1 AnthropicProvider.DEFAULT_MODEL "x \x7b]\x7d" "\x7b]\x7d"
      "Expecting property name enclosed in double quotes" rfl rfl,
    h.2.2.1 AnthropicProvider.DEFAULT_MODEL "\x7b\"summary\":\"ok\"\x7d"
      "\x7b\"summary\":\"ok\"\x7d" (Json.obj [("summary", Json.str "ok")]) rfl rfl
      (Or.inr rfl),
    h.2.2.2.1 AnthropicProvider.DEFAULT_MODEL "no json here"
      (Reviewer.mk_request "a.py" "print(1)" .full none)
      (.reviewError "Failed to parse review response: Could not find JSON in Claude's response")
      (by decide) (h.1 AnthropicProvider.DEFAULT_MODEL "no json here" rfl),
    h.2.2.2.2 [goodEntryA] [goodEntryB] (Json.obj [("content", Json.str "x")]) rfl⟩

/-! ## Round trip through the storage serialization (C6) -/

/-- Per-comment round trip: deserializing a serialized comment restores it
field for field. -/
theorem deserialize_serialize_comment (c : ReviewComment) :
    SQLiteStorage.deserialize_comment (SQLiteStorage.serialize_comment c) = .ok c := rfl

/-- Round trip over a whole comment list. -/
theorem deserialize_comments_serialize (cs : List ReviewComment) :
    SQLiteStorage.deserialize_comments (cs.map SQLiteStorage.serialize_comment) =
      .ok cs := by
  induction cs with
  | nil => rfl
  | cons c rest ih =>
    rw [List.map_cons]
    show (match SQLiteStorage.deserialize_comment (SQLiteStorage.serialize_comment c) with
      | .error e => Except.error e
      | .ok rc =>
        match SQLiteStorage.deserialize_comments
            (rest.map SQLiteStorage.serialize_comment) with
        | .error e => Except.error e
        | .ok rcs => Except.ok (rc :: rcs)) = Except.ok (c :: rest)
    rw [deserialize_serialize_comment, ih]

/-- Full response round trip: `_deserialize_review` inverts
`_serialize_review` on every response, field for field in comments,
summary, score and metadata. -/
theorem deserialize_serialize_review (r : AIResponse) :
    SQLiteStorage._deserialize_review (SQLiteStorage._serialize_review r) = .ok r := by
  show (match SQLiteStorage.deserialize_comments
        (r.comments.map SQLiteStorage.serialize_comment) with
    | .error e => Except.error e
    | .ok comments =>
      Except.ok { comments := comments, summary := r.summary
                  score := r.score, metadata := r.metadata }) = Except.ok r
  rw [deserialize_comments_serialize]

/-- `ReviewType(rt.value)` restores the enum member. -/
theorem ReviewType.ofValue_value (rt : ReviewType) : ReviewType.ofValue? rt.value = some rt := by
  cases rt <;> rfl

/-- `find?` skips a prefix containing no match. -/
theorem find?_append_of_none {α : Type _} (p : α → Bool) (l1 l2 : List α)
    (h : l1.find? p = none) : (l1 ++ l2).find? p = l2.find? p := by
  induction l1 with
  | nil => rfl
  | cons x xs ih =>
    cases hx : p x with
    | true =>
      rw [List.find?_cons_of_pos _ hx] at h
      cases h
    | false =>
      have hnx : ¬ p x = true := by simp [hx]
      rw [List.find?_cons_of_neg _ hnx] at h
      rw [List.cons_append, List.find?_cons_of_neg _ hnx, ih h]

/-- C6: `save_review` followed by `get_review` with the returned id (a
fresh uuid, hence absent from the prior table) yields a record whose
response is field-for-field equal to the original in its comments,
summary, score and metadata. -/
theorem save_then_get_roundtrip (db : ReviewsDb) (fresh : String) (now : Nat)
    (fp : String) (rt : ReviewType) (review : AIResponse) (md : Option Json)
    (hfresh : ∀ row ∈ db, row.id ≠ fresh) :
    SQLiteStorage.get_review (SQLiteStorage.save_review db fresh now fp rt review md).2
        (SQLiteStorage.save_review db fresh now fp rt review md).1 =
      .ok (some (ReviewRecord.make fresh fp rt review now (storedMetadata md))) ∧
    (ReviewRecord.make fresh fp rt review now (storedMetadata md)).review_response =
      review := by
  refine ⟨?_, rfl⟩
  have hnone : db.find? (fun row => row.id == fresh) = none := by
    rw [List.find?_eq_none]
    intro row hrow
    simpa using hfresh row hrow
  show (match (db ++ [{ id := fresh, file_path := fp, review_type := rt.value
                        review_response := SQLiteStorage._serialize_review review
                        timestamp := now
                        metadata := storedMetadata md : ReviewRow }]).find?
          (fun row => row.id == fresh) with
    | none => Except.ok none
    | some row =>
      match SQLiteStorage.row_to_record row with
      | Except.ok rec => Except.ok (some rec)
      | Except.error e =>
        Except.error (AIError.storageError ("Failed to get review: " ++ e.message))) =
    Except.ok (some (ReviewRecord.make fresh fp rt review now (storedMetadata md)))
  rw [find?_append_of_none _ _ _ hnone, List.find?_cons_of_pos _ (by simp)]
  simp [SQLiteStorage.row_to_record, ReviewType.ofValue_value, deserialize_serialize_review]

/-- Witness for C6: a concrete save-then-get round trip on an empty table
restores `sampleResponse` field for field. -/
theorem save_then_get_roundtrip_witness :
    SQLiteStorage.get_review
        (SQLiteStorage.save_review [] "id-1" 5 "a.py" .full sampleResponse none).2
        (SQLiteStorage.save_review [] "id-1" 5 "a.py" .full sampleResponse none).1 =
      .ok (some (ReviewRecord.make "id-1" "a.py" .full sampleResponse 5
        (storedMetadata none))) ∧
    (ReviewRecord.make "id-1" "a.py" .full sampleResponse 5
        (storedMetadata none)).review_response = sampleResponse :=
  save_then_get_roundtrip [] "id-1" 5 "a.py" .full sampleResponse none (by simp)

/-! ## Retention cleanup (C7) -/

/-- With primary-key-unique ids, `find?` by id returns exactly the stored
row. -/
theorem find?_id_eq_of_nodup :
    ∀ (l : ReviewsDb), (l.map ReviewRow.id).Nodup → ∀ row ∈ l,
    l.find? (fun r => r.id == row.id) = some row := by
  intro l
  induction l with
  | nil => intro _ row h; simp at h
  | cons x xs ih =>
    intro hnd row hrow
    rw [List.map_cons, List.nodup_cons] at hnd
    rcases List.mem_cons.mp hrow with heq | hmem
    · subst heq
      rw [List.find?_cons_of_pos _ (by simp)]
    · have hne : x.id ≠ row.id := by
        intro h
        exact hnd.1 (h ▸ List.mem_map_of_mem ReviewRow.id hmem)
      rw [List.find?_cons_of_neg _ (by simp [hne]), ih hnd.2 row hmem]

/-- A filter and its complement partition the length. -/
theorem length_filter_add_length_filter_not {α : Type _} (p : α → Bool) (l : List α) :
    (l.filter p).length + (l.filter (fun a => !p a)).length = l.length := by
  induction l with
  | nil => rfl
  | cons x xs ih => cases hx : p x <;> simp [List.filter_cons, hx] <;> omega

/-- C7: `cleanup_old_reviews(T)` removes exactly the records with
`timestamp < T` strictly, returns the number removed (`0` when none
match, since the kept and removed rows partition the table), and every
record with `timestamp ≥ T` remains retrievable afterwards. -/
theorem cleanup_removes_exactly_older (db : ReviewsDb) (older_than : Nat)
    (hnodup : (db.map ReviewRow.id).Nodup) :
    (SQLiteStorage.cleanup_old_reviews db older_than).2 =
      db.filter (fun row => decide (older_than ≤ row.timestamp)) ∧
    (SQLiteStorage.cleanup_old_reviews db older_than).1 =
      (db.filter (fun row => decide (row.timestamp < older_than))).length ∧
    (SQLiteStorage.cleanup_old_reviews db older_than).1 +
      (SQLiteStorage.cleanup_old_reviews db older_than).2.length = db.length ∧
    (∀ row ∈ db, older_than ≤ row.timestamp →
      ∀ resp rt, row.review_response = SQLiteStorage._serialize_review resp →
      ReviewType.ofValue? row.review_type = some rt →
      SQLiteStorage.get_review (SQLiteStorage.cleanup_old_reviews db older_than).2 row.id =
        .ok (some (ReviewRecord.make row.id row.file_path rt resp row.timestamp
          row.metadata))) := by
  have hpt : ∀ a : Nat, (!decide (a < older_than)) = decide (older_than ≤ a) := by
    intro a
    by_cases h : a < older_than
    · simp [h, Nat.not_le.mpr h]
    · simp [h, Nat.le_of_not_lt h]
  refine ⟨?_, rfl, ?_, ?_⟩
  · exact List.filter_congr (fun row _ => hpt row.timestamp)
  · exact length_filter_add_length_filter_not _ db
  · intro row hmem hge resp rt hresp hrt
    have hkept : row ∈ (SQLiteStorage.cleanup_old_reviews db older_than).2 :=
      List.mem_filter.mpr ⟨hmem, by simp [Nat.not_lt.mpr hge]⟩
    have hkeptnodup :
        ((SQLiteStorage.cleanup_old_reviews db older_than).2.map ReviewRow.id).Nodup :=
      List.Nodup.sublist ((List.filter_sublist db).map ReviewRow.id) hnodup
    show (match (SQLiteStorage.cleanup_old_reviews db older_than).2.find?
            (fun r => r.id == row.id) with
      | none => Except.ok none
      | some r =>
        match SQLiteStorage.row_to_record r with
        | Except.ok rec => Except.ok (some rec)
        | Except.error e =>
          Except.error (AIError.storageError ("Failed to get review: " ++ e.message))) =
      Except.ok (some (ReviewRecord.make row.id row.file_path rt resp row.timestamp
        row.metadata))
    rw [find?_id_eq_of_nodup _ hkeptnodup row hkept]
    simp [SQLiteStorage.row_to_record, hrt, hresp, deserialize_serialize_review]

/-- An old stored row (timestamp 1). -/
def rowOldC7 : ReviewRow :=
  { id := "old", file_path := "a.py", review_type := "full"
    review_response := SQLiteStorage._serialize_review sampleResponse
    timestamp := 1, metadata := none }

/-- A recent stored row (timestamp 10). -/
def rowNewC7 : ReviewRow :=
  { id := "new", file_path := "b.py", review_type := "full"
    review_response := SQLiteStorage._serialize_review sampleResponse
    timestamp := 10, metadata := none }

/-- Witness for C7: cleaning up before timestamp 5 removes exactly the old
row, reports one removal, and the recent row stays retrievable. -/
theorem cleanup_removes_exactly_older_witness :
    (SQLiteStorage.cleanup_old_reviews [rowOldC7, rowNewC7] 5).1 = 1 ∧
    (SQLiteStorage.cleanup_old_reviews [rowOldC7, rowNewC7] 5).2 = [rowNewC7] ∧
    SQLiteStorage.get_review (SQLiteStorage.cleanup_old_reviews [rowOldC7, rowNewC7] 5).2
        "new" =
      .ok (some (ReviewRecord.make "new" "b.py" .full sampleResponse 10 none)) := by
  have h := cleanup_removes_exactly_older [rowOldC7, rowNewC7] 5 (by decide)
  have hmem : rowNewC7 ∈ [rowOldC7, rowNewC7] :=
    List.mem_cons_of_mem rowOldC7 (List.mem_cons_self rowNewC7 [])
  have hrow := h.2.2.2 rowNewC7 hmem (by decide) sampleResponse .full rfl rfl
  exact ⟨by rw [h.2.1]; rfl, by rw [h.1]; rfl, hrow⟩

/-! ## Falsy limit in `get_file_reviews` (C10) -/

/-- Insertion keeps one more element. -/
theorem insertRowDesc_length (row : ReviewRow) :
    ∀ l, (insertRowDesc row l).length = l.length + 1 := by
  intro l
  induction l with
  | nil => rfl
  | cons r rs ih => by_cases h : row.timestamp ≤ r.timestamp <;> simp [insertRowDesc, h, ih]

/-- `ORDER BY` does not change the number of rows. -/
theorem sortByTimestampDesc_length : ∀ l, (sortByTimestampDesc l).length = l.length := by
  intro l
  induction l with
  | nil => rfl
  | cons r rs ih => simp [sortByTimestampDesc, insertRowDesc_length, ih]

/-- A successful query materialises one record per row. -/
theorem rows_to_records_ok_length :
    ∀ (rows : List ReviewRow) (recs : List ReviewRecord),
    SQLiteStorage.rows_to_records rows = .ok recs → recs.length = rows.length := by
  intro rows
  induction rows with
  | nil =>
    intro recs h
    cases h
    rfl
  | cons row rest ih =>
    intro recs h
    unfold SQLiteStorage.rows_to_records at h
    cases hr : SQLiteStorage.row_to_record row <;> rw [hr] at h
    · cases h
    · cases hrest : SQLiteStorage.rows_to_records rest <;> rw [hrest] at h
      · cases h
      · cases h
        simp [ih _ hrest]

/-- C10: `get_file_reviews` with `limit = 0` behaves as `limit = None` —
`if limit:` treats a falsy limit as "no cap" — and on success returns all
matching records, one per matching row, never zero records. -/
theorem get_file_reviews_limit_zero_no_cap (db : ReviewsDb) (fp : String)
    (rt? : Option ReviewType) :
    SQLiteStorage.get_file_reviews db fp (some 0) rt? =
      SQLiteStorage.get_file_reviews db fp none rt? ∧
    (∀ recs, SQLiteStorage.get_file_reviews db fp (some 0) rt? = .ok recs →
      recs.length = (db.filter (SQLiteStorage.fileQueryMatches fp rt?)).length) := by
  have heq : SQLiteStorage.get_file_reviews db fp (some 0) rt? =
      SQLiteStorage.get_file_reviews db fp none rt? := by
    unfold SQLiteStorage.get_file_reviews
    simp
  refine ⟨heq, ?_⟩
  intro recs h
  rw [heq] at h
  have h' : (match SQLiteStorage.rows_to_records
        (sortByTimestampDesc (db.filter (SQLiteStorage.fileQueryMatches fp rt?))) with
    | Except.ok recs2 => Except.ok recs2
    | Except.error e =>
      Except.error (AIError.storageError ("Failed to get file reviews: " ++ e.message))) =
      Except.ok recs := h
  cases hrr : SQLiteStorage.rows_to_records
      (sortByTimestampDesc (db.filter (SQLiteStorage.fileQueryMatches fp rt?))) <;>
    rw [hrr] at h'
  · cases h'
  · cases h'
    rw [rows_to_records_ok_length _ _ hrr, sortByTimestampDesc_length]

/-- Witness for C10: a one-row table queried with `limit = 0` returns its
single matching record, not zero records. -/
theorem get_file_reviews_limit_zero_no_cap_witness :
    SQLiteStorage.get_file_reviews [rowNewC7] "b.py" (some 0) none =
      SQLiteStorage.get_file_reviews [rowNewC7] "b.py" none none ∧
    ([ReviewRecord.make "new" "b.py" .full sampleResponse 10 none] :
        List ReviewRecord).length =
      ([rowNewC7].filter (SQLiteStorage.fileQueryMatches "b.py" none)).length := by
  have h := get_file_reviews_limit_zero_no_cap [rowNewC7] "b.py" none
  exact ⟨h.1, h.2 [ReviewRecord.make "new" "b.py" .full sampleResponse 10 none] rfl⟩
